import Mathlib

/-!
Shallow embedding of the Google Pay checkout playground (`src/index.js`,
codelab variant with dynamic shipping callbacks) in Lean 4, together with
theorems settling the specification's claims about the shipping-cost
recompute callback (`paymentDataCallback`), the static tables
(`shippingOptionParameters`, `shippingSurcharges`) and the payment
coordinator flow (`onGooglePayLoaded`, `onGooglePaymentsButtonClicked`,
`processPayment`).

JavaScript numbers that can arise in the callback are embedded as exact
rationals extended with `NaN`; a property lookup that can miss yields a
value extended with `undefined`, and calling `.toFixed` on `undefined`
is a `TypeError`, modelled with `Except`.
-/

set_option autoImplicit false

namespace GPay

/-- A JavaScript number as it arises in `paymentDataCallback`: an exact
rational, or `NaN` (as produced by `123.45 + undefined`). -/
inductive JSNum where
  | num (q : ℚ)
  | nan
  deriving DecidableEq, Repr

/-- The result of a JavaScript property read that can miss:
`shippingSurcharges[id]` yields the stored number or `undefined`. -/
inductive JSVal where
  | num (q : ℚ)
  | undefined
  deriving DecidableEq, Repr

/-- JavaScript addition `a + v` where `a` is a number and `v` may be
`undefined`: adding `undefined` to a number gives `NaN`. -/
def jsAdd (a : ℚ) : JSVal → JSNum
  | .num b => .num (a + b)
  | .undefined => .nan

/-- A runtime fault the embedded code can raise, plus the explicit
invalid-input fault the specification's error-handling section demands
(which the source never raises). -/
inductive JsError where
  | typeError (msg : String)
  | invalidShippingOption (id : String)
  deriving DecidableEq, Repr

/-- Value of `q` rounded half-up to an integer number of cents, matching
`Number.prototype.toFixed(2)` on the non-negative amounts this program
handles: `⌊q * 100 + 1/2⌋` computed as exact integer division. -/
def toFixed2Cents (q : ℚ) : ℤ :=
  (q.num * 200 + q.den) / (2 * (q.den : ℤ))

/-- Rounding a non-negative rational half-up to 2 decimal places, as a
rational (the numeric value behind the `toFixed(2)` string). -/
def round2 (q : ℚ) : ℚ :=
  (toFixed2Cents q : ℚ) / 100

/-- Renders a non-negative cent count the way `toFixed(2)` prints it:
whole part, a dot, and exactly two fraction digits. -/
def centsToString (c : ℤ) : String :=
  let n := c.toNat
  let frac := n % 100
  toString (n / 100) ++ "." ++ (if frac < 10 then "0" ++ toString frac else toString frac)

/-- `Number.prototype.toFixed(2)` on a non-negative rational. -/
def ratToFixed2 (q : ℚ) : String :=
  centsToString (toFixed2Cents q)

/-- `toFixed(2)` on a JavaScript number; `NaN.toFixed(2)` is the string
`"NaN"` (no exception). -/
def JSNum.toFixed2 : JSNum → String
  | .num q => ratToFixed2 q
  | .nan => "NaN"

/-- `toFixed(2)` on a possibly-`undefined` value: a method call on
`undefined` throws a `TypeError`. -/
def JSVal.toFixed2E : JSVal → Except JsError String
  | .num q => .ok (ratToFixed2 q)
  | .undefined => .error (.typeError "Cannot read properties of undefined (reading toFixed)")

/-- One entry of `shippingOptionParameters.shippingOptions`
(src/index.js lines 511-529). -/
structure ShippingOption where
  id : String
  label : String
  description : String
  deriving DecidableEq, Repr

/-- The `shippingOptionParameters` object (src/index.js lines 511-529). -/
structure ShippingOptionParameters where
  shippingOptions : List ShippingOption
  deriving DecidableEq, Repr

def shippingOptionParameters : ShippingOptionParameters :=
  { shippingOptions :=
      [ { id := "shipping-001"
          label := "$1.99: Standard shipping"
          description := "Delivered on May 15." }
      , { id := "shipping-002"
          label := "$3.99: Expedited shipping"
          description := "Delivered on May 12." }
      , { id := "shipping-003"
          label := "$10: Express shipping"
          description := "Delivered tomorrow." } ] }

/-- The `shippingSurcharges` table (src/index.js lines 532-536), as an
association list from shipping option id to exact surcharge amount. -/
def shippingSurcharges : List (String × ℚ) :=
  [ ("shipping-001", 199/100)
  , ("shipping-002", 399/100)
  , ("shipping-003", 10) ]

/-- The property read `shippingSurcharges[selectedShippingOptionId]`:
the stored number, or `undefined` when the key is absent. -/
def lookupSurcharge (id : String) : JSVal :=
  match shippingSurcharges.lookup id with
  | some q => .num q
  | none => .undefined

/-- The nested `callbackPayload.shippingOptionData` object. -/
structure ShippingOptionData where
  id : String
  deriving DecidableEq, Repr

/-- The callback payload handed to `paymentDataCallback` by the SDK; the
function only reads `shippingOptionData.id`. -/
structure CallbackPayload where
  shippingOptionData : ShippingOptionData
  deriving DecidableEq, Repr

/-- One entry of the returned `displayItems` array. In the source the
`"Subtotal"` item has no `status` property and the `"Shipping"` item has
`status: "FINAL"`, so `status` is optional here. -/
structure DisplayItem where
  label : String
  type : String
  price : String
  status : Option String
  deriving DecidableEq, Repr

/-- The `newTransactionInfo` structure returned by `paymentDataCallback`
(src/index.js lines 460-480). -/
structure NewTransactionInfo where
  totalPriceStatus : String
  totalPrice : String
  totalPriceLabel : String
  currencyCode : String
  displayItems : List DisplayItem
  deriving DecidableEq, Repr

/-- The hardcoded base amount `123.45` in
`const priceWithSurcharges = 123.45 + shippingSurcharge`
(src/index.js line 458). -/
def baseTotal : ℚ := 12345 / 100

/-- Shallow embedding of `paymentDataCallback` (src/index.js lines
454-481). The surcharge lookup can yield `undefined`; the addition then
yields `NaN` and, while the returned object literal is being built, the
call `shippingSurcharge.toFixed(2)` on `undefined` throws a `TypeError`,
so the whole call faults instead of returning. -/
def paymentDataCallback (callbackPayload : CallbackPayload) :
    Except JsError NewTransactionInfo :=
  let selectedShippingOptionId := callbackPayload.shippingOptionData.id
  let shippingSurcharge := lookupSurcharge selectedShippingOptionId
  let priceWithSurcharges := jsAdd baseTotal shippingSurcharge
  do
    let shippingPrice ← shippingSurcharge.toFixed2E
    pure
      { totalPriceStatus := "FINAL"
        totalPrice := priceWithSurcharges.toFixed2
        totalPriceLabel := "Total"
        currencyCode := "USD"
        displayItems :=
          [ { label := "Subtotal"
              type := "SUBTOTAL"
              price := priceWithSurcharges.toFixed2
              status := none }
          , { label := "Shipping"
              type := "LINE_ITEM"
              price := shippingPrice
              status := some "FINAL" } ] }

/-- Splits a character list at the first dot, or `none` when there is no
dot: the whole part and the fraction part of a decimal numeral. -/
def splitOnDot : List Char → Option (List Char × List Char)
  | [] => none
  | c :: cs =>
    if c = '.' then some ([], cs)
    else (splitOnDot cs).map (fun p => (c :: p.1, p.2))

/-- The numeric value of a decimal digit character, or `none`. -/
def digitVal (c : Char) : Option ℕ :=
  if 47 < c.toNat && c.toNat < 58 then some (c.toNat - 48) else none

/-- Reads a digit string left to right into a natural number. -/
def digitsAux : List Char → ℕ → Option ℕ
  | [], acc => some acc
  | c :: cs, acc =>
    match digitVal c with
    | some d => digitsAux cs (acc * 10 + d)
    | none => none

/-- A non-empty all-digit character list as a natural number. -/
def digitsToNat : List Char → Option ℕ
  | [] => none
  | l => digitsAux l 0

/-- Parses a `toFixed(2)`-shaped price string `"<digits>.<2 digits>"`
back into the exact rational it denotes. -/
def parsePrice (s : String) : Option ℚ :=
  match splitOnDot s.data with
  | some (w, f) =>
    if f.length = 2 then
      (digitsToNat w).bind (fun wn =>
        (digitsToNat f).map (fun fn => (wn : ℚ) + (fn : ℚ) / 100))
    else none
  | none => none

/-- Sum of the numeric values of a list of display items, when every
price parses. -/
def sumPrices : List DisplayItem → Option ℚ
  | [] => some 0
  | it :: rest =>
    match parsePrice it.price, sumPrices rest with
    | some p, some q => some (p + q)
    | _, _ => none

/-- Sum of the numeric values of the line-item prices of a returned
transaction structure, when every price parses. -/
def itemsSum (r : NewTransactionInfo) : Option ℚ :=
  sumPrices r.displayItems

/-!
The mutable program state of the callback-enabled file: its only mutable
top-level binding is `let googlePayClient`, assigned in
`onGooglePayLoaded`. `paymentDataCallback` reads and writes none of it
(its body only mentions its parameter and the constant tables), so its
state-passing embedding returns the state unchanged.
-/

/-- The mutable top-level state of the file: the `googlePayClient`
binding (abstracted, since the client object belongs to the external
SDK). -/
structure ProgramState where
  googlePayClient : Option Unit
  deriving DecidableEq, Repr

/-- `paymentDataCallback` as a state-passing function: the body contains
no assignment to any outer binding, so the state passes through
untouched. -/
def paymentDataCallbackSt (s : ProgramState) (p : CallbackPayload) :
    ProgramState × Except JsError NewTransactionInfo :=
  (s, paymentDataCallback p)

/-!
Coordinator flow: the readiness-check handler of `onGooglePayLoaded`
and the `loadPaymentData` settlement handling of
`onGooglePaymentsButtonClicked`, for both variants of `onGooglePayLoaded`
present in the repository (the initial codelab variant has no `else`
branch on a negative readiness result; the callback-enabled variant
alerts).
-/

/-- A user-visible UI effect of the readiness-check handler:
`createAndAddButton` appends the pay button (which is what attaches the
`onClick` handler), and `alert` shows a notice. -/
inductive UIAction where
  | addPayButton
  | showAlert (msg : String)
  deriving DecidableEq, Repr

/-- Readiness handler of the callback-enabled `onGooglePayLoaded`
(src/index.js lines 499-508): `response.result` true runs
`createAndAddButton()`, false runs `alert("Unable to pay with GPay")`. -/
def onReadyToPayResponse (result : Bool) : List UIAction :=
  if result then [.addPayButton] else [.showAlert "Unable to pay with GPay"]

/-- Readiness handler of the initial `onGooglePayLoaded` variant
(src/index.js lines 140-144): `response.result` true runs
`createAndAddButton()`; there is no `else` branch. -/
def onReadyToPayResponseInitial (result : Bool) : List UIAction :=
  if result then [.addPayButton] else []

/-- The click handler exists only once `createAndAddButton` has attached
it to the appended button, so it can run only after `addPayButton`. -/
def clickHandlerAttached (actions : List UIAction) : Bool :=
  actions.contains .addPayButton

/-- The `tokenizationData` object inside payment data. -/
structure TokenizationData where
  token : String
  deriving DecidableEq, Repr

/-- The `paymentMethodData` object inside payment data. -/
structure PaymentMethodData where
  tokenizationData : TokenizationData
  deriving DecidableEq, Repr

/-- The `paymentData` delivered on a successful `loadPaymentData`. -/
structure PaymentData where
  paymentMethodData : PaymentMethodData
  deriving DecidableEq, Repr

/-- How the `loadPaymentData` promise settles: resolved with payment
data, or rejected with `{ statusCode: CANCELED || DEVELOPER_ERROR }`. -/
inductive SheetOutcome where
  | resolved (paymentData : PaymentData)
  | rejected (statusCode : String)
  deriving DecidableEq, Repr

/-- Coordinator state after the payment sheet settles: the button is
still on the page (`buttonShown`), or the mock processor step ran. -/
inductive CoordState where
  | buttonShown
  | processorInvoked
  deriving DecidableEq, Repr

/-- The mock-processor message `processPayment` logs
(src/index.js lines 616-632); its invocation marks the processor step. -/
def processPayment (paymentData : PaymentData) : String :=
  "mock send token " ++ paymentData.paymentMethodData.tokenizationData.token
    ++ " to payment processor"

/-- Settlement handling in `onGooglePaymentsButtonClicked`
(src/index.js lines 606-613): `.then` runs `processPayment(paymentData)`;
`.catch` does nothing, leaving the button as it was. Returns the
coordinator state and the processor log if the step ran. -/
def onLoadPaymentDataSettled : SheetOutcome → CoordState × Option String
  | .resolved paymentData => (.processorInvoked, some (processPayment paymentData))
  | .rejected _ => (.buttonShown, none)

/-!
Evaluation lemmas: cent values and `toFixed(2)` strings of the four
amounts the callback can format, and the result of the callback on each
key of the surcharge table.
-/

theorem toFixed2Cents_eq_of (q : ℚ) (n : ℤ) (d : ℕ) (c : ℤ)
    (h1 : q.num = n) (h2 : q.den = d)
    (h3 : (n * 200 + (d : ℤ)) / (2 * (d : ℤ)) = c) :
    toFixed2Cents q = c := by
  unfold toFixed2Cents
  rw [h1, h2, h3]

theorem ratToFixed2_eq_of (q : ℚ) (c : ℤ) (h : toFixed2Cents q = c) :
    ratToFixed2 q = centsToString c := by
  unfold ratToFixed2
  rw [h]

theorem cents_base_001 : toFixed2Cents (baseTotal + 199/100) = 12544 :=
  toFixed2Cents_eq_of _ 3136 25 12544 (by norm_num [baseTotal]) (by norm_num [baseTotal]) (by decide)

theorem cents_base_002 : toFixed2Cents (baseTotal + 399/100) = 12744 :=
  toFixed2Cents_eq_of _ 3186 25 12744 (by norm_num [baseTotal]) (by norm_num [baseTotal]) (by decide)

theorem cents_base_003 : toFixed2Cents (baseTotal + 10) = 13345 :=
  toFixed2Cents_eq_of _ 2669 20 13345 (by norm_num [baseTotal]) (by norm_num [baseTotal]) (by decide)

theorem cents_199 : toFixed2Cents (199/100) = 199 :=
  toFixed2Cents_eq_of _ 199 100 199 (by norm_num) (by norm_num) (by decide)

theorem cents_399 : toFixed2Cents (399/100) = 399 :=
  toFixed2Cents_eq_of _ 399 100 399 (by norm_num) (by norm_num) (by decide)

theorem cents_10 : toFixed2Cents 10 = 1000 :=
  toFixed2Cents_eq_of _ 10 1 1000 (by norm_num) (by norm_num) (by decide)

theorem str_base_001 : ratToFixed2 (baseTotal + 199/100) = "125.44" := by
  rw [ratToFixed2_eq_of _ 12544 cents_base_001]
  rfl

theorem str_base_002 : ratToFixed2 (baseTotal + 399/100) = "127.44" := by
  rw [ratToFixed2_eq_of _ 12744 cents_base_002]
  rfl

theorem str_base_003 : ratToFixed2 (baseTotal + 10) = "133.45" := by
  rw [ratToFixed2_eq_of _ 13345 cents_base_003]
  rfl

theorem str_199 : ratToFixed2 (199/100) = "1.99" := by
  rw [ratToFixed2_eq_of _ 199 cents_199]
  rfl

theorem str_399 : ratToFixed2 (399/100) = "3.99" := by
  rw [ratToFixed2_eq_of _ 399 cents_399]
  rfl

theorem str_10 : ratToFixed2 10 = "10.00" := by
  rw [ratToFixed2_eq_of _ 1000 cents_10]
  rfl

theorem round2_base_001 : round2 (baseTotal + 199/100) = 12544/100 := by
  unfold round2
  rw [cents_base_001]
  norm_num

theorem round2_base_002 : round2 (baseTotal + 399/100) = 12744/100 := by
  unfold round2
  rw [cents_base_002]
  norm_num

theorem round2_base_003 : round2 (baseTotal + 10) = 13345/100 := by
  unfold round2
  rw [cents_base_003]
  norm_num

theorem parse_12544 : parsePrice "125.44" = some (12544/100 : ℚ) := by
  have h : parsePrice "125.44" = some (((125 : ℕ) : ℚ) + ((44 : ℕ) : ℚ)/100) := rfl
  rw [h]
  norm_num

theorem parse_12744 : parsePrice "127.44" = some (12744/100 : ℚ) := by
  have h : parsePrice "127.44" = some (((127 : ℕ) : ℚ) + ((44 : ℕ) : ℚ)/100) := rfl
  rw [h]
  norm_num

theorem parse_13345 : parsePrice "133.45" = some (13345/100 : ℚ) := by
  have h : parsePrice "133.45" = some (((133 : ℕ) : ℚ) + ((45 : ℕ) : ℚ)/100) := rfl
  rw [h]
  norm_num

theorem parse_199 : parsePrice "1.99" = some (199/100 : ℚ) := by
  have h : parsePrice "1.99" = some (((1 : ℕ) : ℚ) + ((99 : ℕ) : ℚ)/100) := rfl
  rw [h]
  norm_num

theorem parse_399 : parsePrice "3.99" = some (399/100 : ℚ) := by
  have h : parsePrice "3.99" = some (((3 : ℕ) : ℚ) + ((99 : ℕ) : ℚ)/100) := rfl
  rw [h]
  norm_num

theorem parse_10 : parsePrice "10.00" = some (10 : ℚ) := by
  have h : parsePrice "10.00" = some (((10 : ℕ) : ℚ) + ((0 : ℕ) : ℚ)/100) := rfl
  rw [h]
  norm_num

/-- On any id the surcharge table maps to `s`, the callback returns the
structure of src/index.js lines 460-480, with both `toFixed(2)` strings
still symbolic. -/
theorem paymentDataCallback_ok (id : String) (s : ℚ)
    (h : shippingSurcharges.lookup id = some s) :
    paymentDataCallback ⟨⟨id⟩⟩ = Except.ok
      { totalPriceStatus := "FINAL"
        totalPrice := ratToFixed2 (baseTotal + s)
        totalPriceLabel := "Total"
        currencyCode := "USD"
        displayItems :=
          [ { label := "Subtotal", type := "SUBTOTAL",
              price := ratToFixed2 (baseTotal + s), status := none }
          , { label := "Shipping", type := "LINE_ITEM",
              price := ratToFixed2 s, status := some "FINAL" } ] } := by
  have e : lookupSurcharge id = JSVal.num s := by
    unfold lookupSurcharge
    rw [h]
  unfold paymentDataCallback
  dsimp only
  rw [e]
  rfl

/-- On any id absent from the surcharge table, the lookup yields
`undefined` and the method call `shippingSurcharge.toFixed(2)` inside the
returned object literal throws a `TypeError`. -/
theorem paymentDataCallback_typeError (id : String)
    (h : shippingSurcharges.lookup id = none) :
    paymentDataCallback ⟨⟨id⟩⟩ =
      .error (.typeError "Cannot read properties of undefined (reading toFixed)") := by
  have e : lookupSurcharge id = JSVal.undefined := by
    unfold lookupSurcharge
    rw [h]
  unfold paymentDataCallback
  dsimp only
  rw [e]
  rfl

theorem result_001 : paymentDataCallback ⟨⟨"shipping-001"⟩⟩ = Except.ok
    { totalPriceStatus := "FINAL", totalPrice := "125.44", totalPriceLabel := "Total",
      currencyCode := "USD",
      displayItems :=
        [ { label := "Subtotal", type := "SUBTOTAL", price := "125.44", status := none }
        , { label := "Shipping", type := "LINE_ITEM", price := "1.99", status := some "FINAL" } ] } := by
  rw [paymentDataCallback_ok "shipping-001" (199/100) rfl, str_base_001, str_199]

theorem result_002 : paymentDataCallback ⟨⟨"shipping-002"⟩⟩ = Except.ok
    { totalPriceStatus := "FINAL", totalPrice := "127.44", totalPriceLabel := "Total",
      currencyCode := "USD",
      displayItems :=
        [ { label := "Subtotal", type := "SUBTOTAL", price := "127.44", status := none }
        , { label := "Shipping", type := "LINE_ITEM", price := "3.99", status := some "FINAL" } ] } := by
  rw [paymentDataCallback_ok "shipping-002" (399/100) rfl, str_base_002, str_399]

theorem result_003 : paymentDataCallback ⟨⟨"shipping-003"⟩⟩ = Except.ok
    { totalPriceStatus := "FINAL", totalPrice := "133.45", totalPriceLabel := "Total",
      currencyCode := "USD",
      displayItems :=
        [ { label := "Subtotal", type := "SUBTOTAL", price := "133.45", status := none }
        , { label := "Shipping", type := "LINE_ITEM", price := "10.00", status := some "FINAL" } ] } := by
  rw [paymentDataCallback_ok "shipping-003" 10 rfl, str_base_003, str_10]

/-!
Claim theorems.
-/

/-- C1 counterexample: at the valid id `"shipping-001"` the two returned
line items parse to 125.44 and 1.99, which sum to 127.43, while the
returned new total parses to 125.44 — the items do not sum to the new
total, because the Subtotal item already includes the surcharge. -/
theorem lineItems_sum_exceeds_total :
    (paymentDataCallback ⟨⟨"shipping-001"⟩⟩).map
        (fun r => (itemsSum r, parsePrice r.totalPrice)) =
      .ok (some (12743/100), some (12544/100)) ∧ (12743/100 : ℚ) ≠ 12544/100 := by
  refine ⟨?_, by norm_num⟩
  rw [result_001]
  simp only [Except.map, itemsSum, sumPrices, parse_12544, parse_199]
  norm_num

/-- C1 (amended): for every id in the surcharge table, the recompute
function returns a new total equal to the hardcoded base total 123.45
plus the surcharge, rounded half-up to 2 decimal places; the two line
items are the new total and the surcharge, so they sum to the new total
plus the surcharge (not to the new total). -/
theorem recompute_total_and_items (id : String) (s : ℚ)
    (h : (id, s) ∈ shippingSurcharges) :
    (paymentDataCallback ⟨⟨id⟩⟩).map
        (fun r => (parsePrice r.totalPrice, itemsSum r)) =
      .ok (some (round2 (baseTotal + s)), some (round2 (baseTotal + s) + s)) := by
  simp only [shippingSurcharges, List.mem_cons, List.not_mem_nil, or_false,
    Prod.mk.injEq] at h
  rcases h with ⟨rfl, rfl⟩ | ⟨rfl, rfl⟩ | ⟨rfl, rfl⟩
  · rw [result_001, round2_base_001]
    simp only [Except.map, itemsSum, sumPrices, parse_12544, parse_199]
    norm_num
  · rw [result_002, round2_base_002]
    simp only [Except.map, itemsSum, sumPrices, parse_12744, parse_399]
    norm_num
  · rw [result_003, round2_base_003]
    simp only [Except.map, itemsSum, sumPrices, parse_13345, parse_10]
    norm_num

/-- C1 witness: the amended theorem applied at `"shipping-001"`. -/
theorem recompute_total_and_items_witness :
    (paymentDataCallback ⟨⟨"shipping-001"⟩⟩).map
        (fun r => (parsePrice r.totalPrice, itemsSum r)) =
      .ok (some (round2 (baseTotal + 199/100)), some (round2 (baseTotal + 199/100) + 199/100)) :=
  recompute_total_and_items "shipping-001" (199/100) (List.Mem.head _)

/-- C2: for an id absent from the surcharge table (here
`"shipping-999"`), the lookup yields `undefined`, the addition yields
`NaN`, and building the returned object throws a `TypeError` from
`shippingSurcharge.toFixed(2)` — the function faults without any
explicit invalid-input check and never returns a value (so never returns
`NaN` to the caller). -/
theorem invalid_id_typeError_fault :
    paymentDataCallback ⟨⟨"shipping-999"⟩⟩ =
      .error (.typeError "Cannot read properties of undefined (reading toFixed)") :=
  paymentDataCallback_typeError "shipping-999" rfl

/-- C3 counterexample: at the valid id `"shipping-001"`, the statuses of
the two returned items are `none` and `some "FINAL"` — the Subtotal item
carries no FINAL status marker, so the two items do not each carry one. -/
theorem subtotal_item_lacks_final_status :
    (paymentDataCallback ⟨⟨"shipping-001"⟩⟩).map
        (fun r => r.displayItems.map DisplayItem.status) =
      .ok [none, some "FINAL"] ∧ (none : Option String) ≠ some "FINAL" := by
  refine ⟨?_, by simp⟩
  rw [result_001]
  rfl

/-- C3 (amended): for every valid id the returned structure has exactly
two display items — a Subtotal item whose price equals the new total and
a Shipping item whose price equals the surcharge — where the Shipping
item carries status FINAL and the Subtotal item carries no status. -/
theorem displayItems_shape (id : String) (s : ℚ)
    (h : (id, s) ∈ shippingSurcharges) :
    (paymentDataCallback ⟨⟨id⟩⟩).map
        (fun r =>
          (r.displayItems.length,
           r.displayItems.map DisplayItem.label,
           r.displayItems.map DisplayItem.price,
           r.displayItems.map DisplayItem.status,
           r.totalPrice)) =
      .ok (2,
           ["Subtotal", "Shipping"],
           [ratToFixed2 (baseTotal + s), ratToFixed2 s],
           [none, some "FINAL"],
           ratToFixed2 (baseTotal + s)) := by
  simp only [shippingSurcharges, List.mem_cons, List.not_mem_nil, or_false,
    Prod.mk.injEq] at h
  rcases h with ⟨rfl, rfl⟩ | ⟨rfl, rfl⟩ | ⟨rfl, rfl⟩
  · rw [paymentDataCallback_ok "shipping-001" (199/100) rfl]
    rfl
  · rw [paymentDataCallback_ok "shipping-002" (399/100) rfl]
    rfl
  · rw [paymentDataCallback_ok "shipping-003" 10 rfl]
    rfl

/-- C3 witness: the amended theorem applied at `"shipping-001"`. -/
theorem displayItems_shape_witness :
    (paymentDataCallback ⟨⟨"shipping-001"⟩⟩).map
        (fun r =>
          (r.displayItems.length,
           r.displayItems.map DisplayItem.label,
           r.displayItems.map DisplayItem.price,
           r.displayItems.map DisplayItem.status,
           r.totalPrice)) =
      .ok (2,
           ["Subtotal", "Shipping"],
           [ratToFixed2 (baseTotal + 199/100), ratToFixed2 (199/100)],
           [none, some "FINAL"],
           ratToFixed2 (baseTotal + 199/100)) :=
  displayItems_shape "shipping-001" (199/100) (List.Mem.head _)

/-- C4 counterexample: for `"shipping-002"` the table holds 3.99 (not
0.05) and the returned new total is `"127.44"` (not `"1.05"`); the base
total is the hardcoded 123.45, not an input. -/
theorem shipping002_example_mismatch :
    (paymentDataCallback ⟨⟨"shipping-002"⟩⟩).map NewTransactionInfo.totalPrice =
        .ok "127.44" ∧
      "127.44" ≠ "1.05" ∧
      shippingSurcharges.lookup "shipping-002" = some (399/100) ∧
      (399/100 : ℚ) ≠ 5/100 := by
  refine ⟨?_, by decide, rfl, by norm_num⟩
  rw [result_002]
  rfl

/-- C4 (amended): for shipping option id `"shipping-002"` (surcharge
3.99) and the hardcoded base total 123.45, the recompute function
returns newTotal `"127.44"` with line items Subtotal = 127.44 and
Shipping = 3.99. -/
theorem shipping002_actual_output :
    paymentDataCallback ⟨⟨"shipping-002"⟩⟩ = Except.ok
      { totalPriceStatus := "FINAL", totalPrice := "127.44", totalPriceLabel := "Total",
        currencyCode := "USD",
        displayItems :=
          [ { label := "Subtotal", type := "SUBTOTAL", price := "127.44", status := none }
          , { label := "Shipping", type := "LINE_ITEM", price := "3.99", status := some "FINAL" } ] } :=
  result_002

/-- C5: the base total is the hardcoded 123.45, the surcharge for
`"shipping-003"` is 10, and the recompute function returns newTotal
`"133.45"`. -/
theorem shipping003_total_13345 :
    baseTotal = 12345/100 ∧
    shippingSurcharges.lookup "shipping-003" = some 10 ∧
    (paymentDataCallback ⟨⟨"shipping-003"⟩⟩).map NewTransactionInfo.totalPrice =
      .ok "133.45" := by
  refine ⟨rfl, rfl, ?_⟩
  rw [result_003]
  rfl

/-- C6: the recompute callback is pure and idempotent — as a
state-passing function it leaves the program state unchanged, and a
second invocation from the post-state with the same payload yields an
identical structure. -/
theorem paymentDataCallback_pure_idempotent (s : ProgramState) (p : CallbackPayload) :
    (paymentDataCallbackSt s p).1 = s ∧
    (paymentDataCallbackSt s p).2 =
      (paymentDataCallbackSt (paymentDataCallbackSt s p).1 p).2 :=
  ⟨rfl, rfl⟩

/-- C7: every UI-selectable shipping option id has a surcharge entry
(the table keys are a superset of the option ids), and every surcharge
amount in the table is non-negative. -/
theorem surcharge_table_invariant (o : ShippingOption) (kv : String × ℚ)
    (ho : o ∈ shippingOptionParameters.shippingOptions)
    (hkv : kv ∈ shippingSurcharges) :
    (shippingSurcharges.lookup o.id).isSome = true ∧ 0 ≤ kv.2 := by
  constructor
  · simp only [shippingOptionParameters, List.mem_cons, List.not_mem_nil, or_false] at ho
    rcases ho with rfl | rfl | rfl <;> rfl
  · simp only [shippingSurcharges, List.mem_cons, List.not_mem_nil, or_false] at hkv
    rcases hkv with rfl | rfl | rfl <;> norm_num

/-- C7 witness: the invariant applied to the first shipping option and
the first surcharge entry. -/
theorem surcharge_table_invariant_witness :
    (shippingSurcharges.lookup (ShippingOption.id
        ⟨"shipping-001", "$1.99: Standard shipping", "Delivered on May 15."⟩)).isSome = true ∧
      0 ≤ (("shipping-001", (199 : ℚ)/100) : String × ℚ).2 :=
  surcharge_table_invariant _ _ (List.Mem.head _) (List.Mem.head _)

/-- C8 counterexample: in the initial `onGooglePayLoaded` variant
(the one without an `else` branch), a negative readiness result produces
no UI action at all — in particular no user-visible notice — though no
button is added and the click handler is never attached. -/
theorem initial_variant_no_notice :
    onReadyToPayResponseInitial false = [] ∧
    clickHandlerAttached (onReadyToPayResponseInitial false) = false :=
  ⟨rfl, rfl⟩

/-- C8 (amended): on a negative readiness result, neither variant adds
the payment button, so the click handler is never attached and can never
run; the callback-enabled variant shows the alert
"Unable to pay with GPay", while the initial variant shows nothing. -/
theorem readiness_negative_no_button :
    onReadyToPayResponse false = [UIAction.showAlert "Unable to pay with GPay"] ∧
    clickHandlerAttached (onReadyToPayResponse false) = false ∧
    onReadyToPayResponseInitial false = [] ∧
    clickHandlerAttached (onReadyToPayResponseInitial false) = false :=
  ⟨rfl, rfl, rfl, rfl⟩

/-- C9: when `loadPaymentData` rejects with statusCode CANCELED, the
`.catch` branch does nothing — the coordinator stays at ButtonShown and
`processPayment` is never invoked for that attempt. -/
theorem canceled_returns_to_buttonShown :
    onLoadPaymentDataSettled (.rejected "CANCELED") = (.buttonShown, none) :=
  rfl

/-- C10: for every id with a surcharge entry (the three keys of the
table), `paymentDataCallback` evaluates totally — it returns a value and
reaches no faulting operation — and the returned `newTransactionInfo`
has currencyCode "USD" and totalPriceStatus "FINAL". -/
theorem valid_ids_callback_total (id : String) (s : ℚ)
    (h : shippingSurcharges.lookup id = some s) :
    (paymentDataCallback ⟨⟨id⟩⟩).map (fun r => (r.currencyCode, r.totalPriceStatus)) =
      .ok ("USD", "FINAL") := by
  rw [paymentDataCallback_ok id s h]
  rfl

/-- C10 witness: the theorem applied at `"shipping-001"`. -/
theorem valid_ids_callback_total_witness :
    (paymentDataCallback ⟨⟨"shipping-001"⟩⟩).map
        (fun r => (r.currencyCode, r.totalPriceStatus)) = .ok ("USD", "FINAL") :=
  valid_ids_callback_total "shipping-001" (199/100) rfl

end GPay
